import Mathlib

/-
Verification of the in-memory AWS Glue and Greengrass backend models
(moto/glue/models.py and moto/greengrass/models.py) against their
natural-language specification.  Python dictionaries (OrderedDict) are
embedded as insertion-ordered association lists, raised exceptions as
Except values, and each mutating backend method returns the (possibly
partially) mutated state together with its result, mirroring the fact
that in Python a raised exception leaves earlier mutations of self in
place.
-/

set_option maxRecDepth 4000

namespace Moto

/-! ## Insertion-ordered dictionaries (Python OrderedDict / dict) -/

/-- Dict models a Python (Ordered)Dict as an insertion-ordered association
list.  Reachable dictionaries never hold duplicate keys. -/
abbrev Dict (κ α : Type) := List (κ × α)

/-- Lookup, modelling d[k] / d.get(k). -/
def dget? [DecidableEq κ] : Dict κ α → κ → Option α
  | [], _ => none
  | (k', v') :: d, k => if k = k' then some v' else dget? d k

/-- Membership test, modelling the Python expression k in d. -/
def dcontains [DecidableEq κ] (d : Dict κ α) (k : κ) : Bool :=
  (dget? d k).isSome

/-- Assignment d[k] = v: replaces the value in place when the key is
present (Python dicts keep the original key position), otherwise appends
at the end. -/
def dset [DecidableEq κ] : Dict κ α → κ → α → Dict κ α
  | [], k, v => [(k, v)]
  | (k', v') :: d, k, v =>
      if k = k' then (k', v) :: d else (k', v') :: dset d k v

/-- Deletion, modelling del d[k] and d.pop(k, None).  Reachable
dictionaries never hold a duplicate key, so removing every entry with the
key coincides with deleting the single entry. -/
def derase [DecidableEq κ] (d : Dict κ α) (k : κ) : Dict κ α :=
  d.filter (fun p => decide (p.1 ≠ k))

/-- Key listing in insertion order, modelling list(d) / iteration order. -/
def dkeys (d : Dict κ α) : List κ :=
  d.map Prod.fst

theorem dget_set_self [DecidableEq κ] (d : Dict κ α) (k : κ) (v : α) :
    dget? (dset d k v) k = some v := by
  induction d with
  | nil => simp [dset, dget?]
  | cons p d ih =>
    by_cases h : k = p.1
    · simp [dset, dget?, h]
    · simp [dset, dget?, h, ih]

theorem dget_set_ne [DecidableEq κ] (d : Dict κ α) (k k' : κ) (v : α)
    (h : k' ≠ k) : dget? (dset d k v) k' = dget? d k' := by
  induction d with
  | nil => simp [dset, dget?, h]
  | cons p d ih =>
    by_cases h1 : k = p.1
    · subst h1
      simp [dset, dget?, h]
    · by_cases h2 : k' = p.1 <;> simp [dset, dget?, h1, h2, ih]

theorem dcontains_iff [DecidableEq κ] (d : Dict κ α) (k : κ) :
    dcontains d k = true ↔ ∃ v, dget? d k = some v := by
  simp [dcontains, Option.isSome_iff_exists]

theorem dkeys_set_of_contains [DecidableEq κ] (d : Dict κ α) (k : κ) (v : α)
    (h : dcontains d k = true) : dkeys (dset d k v) = dkeys d := by
  induction d with
  | nil => simp [dcontains, dget?] at h
  | cons p d ih =>
    by_cases h1 : k = p.1
    · simp [dset, dkeys, h1]
    · simp only [dcontains, dget?, if_neg h1] at h
      simp [dset, dkeys, h1]
      exact ih h

theorem dget_erase_self [DecidableEq κ] (d : Dict κ α) (k : κ) :
    dget? (derase d k) k = none := by
  induction d with
  | nil => simp [derase, dget?]
  | cons p d ih =>
    by_cases h : p.1 = k
    · simpa [derase, h] using ih
    · have hk : k ≠ p.1 := fun hh => h hh.symm
      simpa [derase, dget?, h, hk] using ih

theorem dget_erase_ne [DecidableEq κ] (d : Dict κ α) (k k' : κ)
    (h : k' ≠ k) : dget? (derase d k) k' = dget? d k' := by
  induction d with
  | nil => simp [derase, dget?]
  | cons p d ih =>
    by_cases h1 : p.1 = k
    · have h2 : k' ≠ p.1 := fun hh => h (hh.trans h1)
      rw [show dget? (p :: d) k' = dget? d k' by simp [dget?, h2], ← ih]
      simp [derase, h1]
    · by_cases h2 : k' = p.1
      · simp [derase, dget?, h1, h2]
      · rw [show dget? (p :: d) k' = dget? d k' by simp [dget?, h2], ← ih]
        simp [derase, dget?, h1, h2]

theorem dcontains_set_self [DecidableEq κ] (d : Dict κ α) (k : κ) (v : α) :
    dcontains (dset d k v) k = true := by
  simp [dcontains, dget_set_self]

/-! ## Shared helpers -/

/-- ACCOUNT_ID: the fixed moto account id returned by get_account_id().
Modelled from the spec: get_account_id lives in the excluded moto.core
module; the spec only requires the ARN to embed the account id, which in
this sample is the fixed default account. -/
def ACCOUNT_ID : String := "123456789012"

/-- sq is a single-quote character as a string, used to assemble Python
error message texts. -/
def sq : String := String.singleton (Char.ofNat 39)

/-! ## Python int() parsing and list indexing -/

/-- digitsToNat folds a list of decimal digits into a number. -/
def digitsToNat (cs : List Char) : Nat :=
  cs.foldl (fun a c => a * 10 + (c.toNat - 48)) 0

/-- pyIntCore parses an optional sign followed by a non-empty run of
decimal digits, the shape accepted by Python int() after stripping
whitespace (numeric-separator underscores are not modelled; no claim
uses them). -/
def pyIntCore : List Char → Option Int
  | [] => none
  | '+' :: cs =>
      if cs ≠ [] ∧ cs.all Char.isDigit then some (digitsToNat cs) else none
  | '-' :: cs =>
      if cs ≠ [] ∧ cs.all Char.isDigit then some (-(digitsToNat cs : Int))
      else none
  | cs =>
      if cs.all Char.isDigit then some (digitsToNat cs) else none

/-- pyInt models Python int(s): surrounding whitespace is stripped, then
an optionally signed run of digits is required. -/
def pyInt (s : String) : Option Int :=
  pyIntCore (((s.data.dropWhile Char.isWhitespace).reverse.dropWhile
    Char.isWhitespace).reverse)

/-- invalidLiteralMsg is the text of the ValueError raised by int() on an
unparsable literal (repr escaping inside the token is elided; no claim
exercises tokens containing quotes). -/
def invalidLiteralMsg (s : String) : String :=
  "invalid literal for int() with base 10: " ++ sq ++ s ++ sq

/-- pyListGet models Python list indexing xs[i] (negative indices count
from the end), returning none exactly when Python raises IndexError. -/
def pyListGet (xs : List α) (i : Int) : Option α :=
  if 0 ≤ i then xs.get? i.toNat
  else if -(xs.length : Int) ≤ i then xs.get? ((xs.length : Int) + i).toNat
  else none

/-! ## Glue data model (moto/glue/models.py) -/

/-- GlueError enumerates the exception classes raised by the glue
backend; invalidInput carries the message of
JsonRESTError("InvalidInputException", msg). -/
inductive GlueError
  | databaseAlreadyExists
  | databaseNotFound (name : String)
  | tableAlreadyExists
  | tableNotFound (name : String)
  | partitionAlreadyExists
  | partitionNotFound
  | versionNotFound
  | crawlerAlreadyExists
  | crawlerNotFound (name : String)
  | jobNotFound (name : String)
  | invalidInput (msg : String)
deriving DecidableEq

/-- TableInput stands for the opaque table_input payload dict: the glue
model stores and returns it without inspecting it. -/
abbrev TableInput := String

/-- PartitionInput models the partition input dict: its Values list plus
the remaining payload fields collapsed into one opaque component (the
code never reads them).  Values is modelled as always present, as in
every claim. -/
structure PartitionInput where
  values : List String
  rest : String
deriving DecidableEq

/-- FakePartition from moto/glue/models.py (creation_time elided: no
claim reads it).  values copies partition_input.get("Values", []). -/
structure FakePartition where
  database_name : String
  table_name : String
  partition_input : PartitionInput
  values : List String
deriving DecidableEq

/-- mkFakePartition embeds FakePartition.__init__. -/
def mkFakePartition (database_name table_name : String)
    (partition_input : PartitionInput) : FakePartition :=
  { database_name := database_name
    table_name := table_name
    partition_input := partition_input
    values := partition_input.values }

/-- FakeTable from moto/glue/models.py (created_time elided).  The
partition map is keyed by str(partition.values); str is injective on
lists of strings, so the canonical key is modelled by the value list
itself (the spec states partition-key equality is structural equality of
the ordered value list). -/
structure FakeTable where
  database_name : String
  name : String
  partitions : Dict (List String) FakePartition
  versions : List TableInput
deriving DecidableEq

/-- mkFakeTable embeds FakeTable.__init__, which stores the first
content snapshot through self.update(table_input). -/
def mkFakeTable (database_name table_name : String)
    (table_input : TableInput) : FakeTable :=
  { database_name := database_name
    name := table_name
    partitions := []
    versions := [table_input] }

/-- FakeTable.update appends a new version snapshot. -/
def FakeTable.updateTable (t : FakeTable) (table_input : TableInput) :
    FakeTable :=
  { t with versions := t.versions ++ [table_input] }

/-- TableVer distinguishes the two runtime types the ver argument of
FakeTable.get_version can have: a Python int (used internally, e.g.
as_dict passes -1) or a string from the external request. -/
inductive TableVer
  | int (i : Int)
  | str (s : String)
deriving DecidableEq

/-- FakeTable.get_version: a non-int argument is parsed with int() and
shifted by one (external "1" is internal index 0); ValueError becomes
InvalidInputException with the parse failure message, IndexError becomes
VersionNotFoundException. -/
def FakeTable.get_version (t : FakeTable) (ver : TableVer) :
    Except GlueError TableInput :=
  match (match ver with
    | .int i => Except.ok i
    | .str s =>
        match pyInt s with
        | some n => Except.ok (n - 1)
        | none => Except.error (GlueError.invalidInput (invalidLiteralMsg s))) with
  | .error e => .error e
  | .ok i =>
      match pyListGet t.versions i with
      | some v => .ok v
      | none => .error .versionNotFound

/-- FakeTable.create_partition: fails with AlreadyExists when the
canonical key is present, otherwise inserts at the end. -/
def FakeTable.create_partition (t : FakeTable)
    (partition_input : PartitionInput) : Except GlueError Unit × FakeTable :=
  let partition := mkFakePartition t.database_name t.name partition_input
  let key := partition.values
  if dcontains t.partitions key then (.error .partitionAlreadyExists, t)
  else (.ok (), { t with partitions := dset t.partitions key partition })

/-- FakeTable.get_partition. -/
def FakeTable.get_partition (t : FakeTable) (values : List String) :
    Except GlueError FakePartition :=
  match dget? t.partitions values with
  | some p => .ok p
  | none => .error .partitionNotFound

/-- FakeTable.update_partition: when old_values equals the input Values
list the partition is replaced in place (never removed, so listing order
is stable); otherwise the old entry is popped (NotFound when absent) and
the partition inserted under the new key (AlreadyExists when occupied).
On the AlreadyExists path the old entry has already been popped, exactly
as in the Python code. -/
def FakeTable.update_partition (t : FakeTable) (old_values : List String)
    (partition_input : PartitionInput) : Except GlueError Unit × FakeTable :=
  let partition := mkFakePartition t.database_name t.name partition_input
  let key := partition.values
  if old_values = partition_input.values then
    if !(dcontains t.partitions key) then (.error .partitionNotFound, t)
    else (.ok (), { t with partitions := dset t.partitions key partition })
  else
    match dget? t.partitions old_values with
    | none => (.error .partitionNotFound, t)
    | some _ =>
        let t1 : FakeTable :=
          { t with partitions := derase t.partitions old_values }
        if dcontains t1.partitions key then (.error .partitionAlreadyExists, t1)
        else (.ok (), { t1 with partitions := dset t1.partitions key partition })

/-- FakeDatabase from moto/glue/models.py (created_time elided;
database_input is opaque to the model). -/
structure FakeDatabase where
  name : String
  input : String
  tables : Dict String FakeTable
deriving DecidableEq

/-- mkFakeDatabase embeds FakeDatabase.__init__. -/
def mkFakeDatabase (database_name : String) (database_input : String) :
    FakeDatabase :=
  { name := database_name, input := database_input, tables := [] }

/-- FakeCrawler from moto/glue/models.py.  The pass-through configuration
fields (targets, schedule, classifiers, policies, configurations, tags)
and the timestamps are elided: they are stored verbatim and no claim
reads them.  Note the ARN literally embeds us-east-1, not the backend
region. -/
structure FakeCrawler where
  name : String
  role : String
  database_name : String
  description : String
  state : String
  version : Nat
  arn : String
deriving DecidableEq

/-- mkFakeCrawler embeds FakeCrawler.__init__ (tag_resource side effect
elided: the tagging service is outside the claims). -/
def mkFakeCrawler (name role database_name description : String) :
    FakeCrawler :=
  { name := name
    role := role
    database_name := database_name
    description := description
    state := "READY"
    version := 1
    arn := "arn:aws:glue:us-east-1:" ++ ACCOUNT_ID ++ ":crawler/" ++ name }

/-- FakeJob from moto/glue/models.py.  The pass-through optional
parameters are elided as for FakeCrawler.  The ARN literally embeds
us-east-1. -/
structure FakeJob where
  name : String
  role : String
  command : String
  description : String
  state : String
  arn : String
deriving DecidableEq

/-- mkFakeJob embeds FakeJob.__init__ (tag_resource side effect
elided). -/
def mkFakeJob (name role command description : String) : FakeJob :=
  { name := name
    role := role
    command := command
    description := description
    state := "READY"
    arn := "arn:aws:glue:us-east-1:" ++ ACCOUNT_ID ++ ":job/" ++ name }

/-- GlueBackend state: the per-region store (job_runs, tagger and
registries elided: no claim touches them). -/
structure GlueBackend where
  region_name : String
  account_id : String
  databases : Dict String FakeDatabase
  crawlers : Dict String FakeCrawler
  jobs : Dict String FakeJob
deriving DecidableEq

/-- emptyGlue is a freshly constructed backend for a given region. -/
def emptyGlue (region_name : String) : GlueBackend :=
  { region_name := region_name
    account_id := ACCOUNT_ID
    databases := []
    crawlers := []
    jobs := [] }

/-- GlueBackend.create_database: duplicate names fail with
DatabaseAlreadyExistsException. -/
def GlueBackend.create_database (s : GlueBackend) (database_name : String)
    (database_input : String) : Except GlueError FakeDatabase × GlueBackend :=
  if dcontains s.databases database_name then (.error .databaseAlreadyExists, s)
  else
    let database := mkFakeDatabase database_name database_input
    (.ok database,
      { s with databases := dset s.databases database_name database })

/-- GlueBackend.create_table: the database must exist and the table name
must be fresh within it. -/
def GlueBackend.create_table (s : GlueBackend)
    (database_name table_name : String) (table_input : TableInput) :
    Except GlueError FakeTable × GlueBackend :=
  match dget? s.databases database_name with
  | none => (.error (.databaseNotFound database_name), s)
  | some database =>
      if dcontains database.tables table_name then (.error .tableAlreadyExists, s)
      else
        let table := mkFakeTable database_name table_name table_input
        let database1 : FakeDatabase :=
          { database with tables := dset database.tables table_name table }
        (.ok table,
          { s with databases := dset s.databases database_name database1 })

/-- GlueBackend.create_crawler: duplicate names fail with
CrawlerAlreadyExistsException; the Python method returns None. -/
def GlueBackend.create_crawler (s : GlueBackend)
    (name role database_name description : String) :
    Except GlueError Unit × GlueBackend :=
  if dcontains s.crawlers name then (.error .crawlerAlreadyExists, s)
  else
    let crawler := mkFakeCrawler name role database_name description
    (.ok (), { s with crawlers := dset s.crawlers name crawler })

/-- GlueBackend.create_job performs no duplicate check: the assignment
self.jobs[name] = FakeJob(...) overwrites any stored job of that name and
the method returns the name. -/
def GlueBackend.create_job (s : GlueBackend)
    (name role command description : String) : String × GlueBackend :=
  (name, { s with jobs := dset s.jobs name (mkFakeJob name role command description) })

/-! ## Anchored regular-expression matchers used by the greengrass model

The regexes in moto/greengrass/models.py are anchored and every
character class excludes the separator that follows it, so greedy
maximal-munch matching is equivalent to the regex semantics.  Matching
is modelled on the character list of the string. -/

/-- stripLit consumes an exact literal fragment of the pattern. -/
def stripLit : List Char → List Char → Option (List Char)
  | [], cs => some cs
  | _ :: _, [] => none
  | p :: ps, c :: cs => if c = p then stripLit ps cs else none

/-- matchPlus consumes a non-empty maximal run of class characters,
modelling an anchored c+ whose follower is outside the class. -/
def matchPlus (p : Char → Bool) (cs : List Char) : Option (List Char) :=
  if (cs.takeWhile p).isEmpty then none else some (cs.dropWhile p)

/-- matchExact consumes exactly n class characters, modelling an
anchored repetition such as [0-9]{12}. -/
def matchExact (p : Char → Bool) (n : Nat) (cs : List Char) :
    Option (List Char) :=
  if (cs.take n).length = n ∧ (cs.take n).all p then some (cs.drop n)
  else none

/-- isAlnumDash models the class [a-zA-Z0-9-] (Char.isAlpha and
Char.isDigit are the ASCII ranges). -/
def isAlnumDash (c : Char) : Bool :=
  c.isAlpha || c.isDigit || c == '-'

/-- isLowerNumDash models the class [a-z0-9-]. -/
def isLowerNumDash (c : Char) : Bool :=
  c.isLower || c.isDigit || c == '-'

/-- isWordDash models the class [a-zA-Z0-9-_]. -/
def isWordDash (c : Char) : Bool :=
  c.isAlpha || c.isDigit || c == '-' || c == '_'

/-- thingArnMatch models
re.match(arn:aws:iot:[a-zA-Z0-9-]+:[0-9]12:thing/[a-zA-Z0-9-]+ dollar, s)
from _is_valid_subscription_target_or_source. -/
def thingArnMatch (s : String) : Bool :=
  (Option.isSome (do
    let cs ← stripLit "arn:aws:iot:".data s.data
    let cs ← matchPlus isAlnumDash cs
    let cs ← stripLit ":".data cs
    let cs ← matchExact Char.isDigit 12 cs
    let cs ← stripLit ":thing/".data cs
    let cs ← matchPlus isAlnumDash cs
    if cs.isEmpty then some () else none))

/-- lambdaArnMatch models the fully-qualified lambda function ARN regex
(function name plus alias or version suffix) from
_is_valid_subscription_target_or_source. -/
def lambdaArnMatch (s : String) : Bool :=
  (Option.isSome (do
    let cs ← stripLit "arn:aws:lambda:".data s.data
    let cs ← matchPlus isAlnumDash cs
    let cs ← stripLit ":".data cs
    let cs ← matchExact Char.isDigit 12 cs
    let cs ← stripLit ":function:".data cs
    let cs ← matchPlus isWordDash cs
    let cs ← stripLit ":".data cs
    let cs ← matchPlus isWordDash cs
    if cs.isEmpty then some () else none))

/-- defVerArnMatch models the definition-version ARN regex built in
_validate_group_version_definitions for a given kind fragment:
arn:aws:greengrass:[a-zA-Z0-9-]+:[0-9]12:greengrass/definition/ followed
by the kind, a 36-character [a-z0-9-] definition id, /versions/ and a
36-character version id. -/
def defVerArnMatch (kind : String) (s : String) : Bool :=
  (Option.isSome (do
    let cs ← stripLit "arn:aws:greengrass:".data s.data
    let cs ← matchPlus isAlnumDash cs
    let cs ← stripLit ":".data cs
    let cs ← matchExact Char.isDigit 12 cs
    let cs ← stripLit ":greengrass/definition/".data cs
    let cs ← stripLit kind.data cs
    let cs ← stripLit "/".data cs
    let cs ← matchExact isLowerNumDash 36 cs
    let cs ← stripLit "/versions/".data cs
    let cs ← matchExact isLowerNumDash 36 cs
    if cs.isEmpty then some () else none))

/-- splitOnChar models Python str.split for a single-character
separator. -/
def splitOnChar (sep : Char) : List Char → List (List Char)
  | [] => [[]]
  | c :: cs =>
      let r := splitOnChar sep cs
      if c = sep then [] :: r
      else
        match r with
        | [] => [[c]]
        | g :: gs => (c :: g) :: gs

/-- pySplitSlash models arn.split("/"). -/
def pySplitSlash (s : String) : List String :=
  (splitOnChar '/' s.data).map (fun cs => String.mk cs)

/-- pyIdxFromEnd models the Python negative index parts[-k] (the callers
only evaluate it on lists long enough for the index to exist, after a
successful regex match). -/
def pyIdxFromEnd (xs : List String) (k : Nat) : String :=
  xs.getD (xs.length - k) ""

/-! ## Greengrass data model (moto/greengrass/models.py)

The uuid4 identifiers generated for definitions and versions are
modelled as explicit arguments of the create operations: the code (and
the spec) assume generated ids are globally fresh, which theorems state
as freshness hypotheses where they matter. -/

/-- GGError enumerates the exception classes raised by the greengrass
backend.  keyError models an uncaught Python KeyError (reachable only
through calls the service layer never makes); clientError carries the
code and message of GreengrassClientError. -/
inductive GGError
  | idNotFound (msg : String)
  | versionNotFound (msg : String)
  | invalidContainerDefinition (msg : String)
  | invalidInput (msg : String)
  | clientError (code msg : String)
  | keyError (key : String)
deriving DecidableEq

/-- coreDefArn synthesizes the FakeCoreDefinition ARN. -/
def coreDefArn (region_name id : String) : String :=
  "arn:aws:greengrass:" ++ region_name ++ ":" ++ ACCOUNT_ID ++
    ":greengrass/definition/cores/" ++ id

/-- coreDefVerArn synthesizes the FakeCoreDefinitionVersion ARN. -/
def coreDefVerArn (region_name id version : String) : String :=
  coreDefArn region_name id ++ "/versions/" ++ version

/-- FakeCoreDefinition (created_at_datetime elided throughout this
model: no claim reads timestamps). -/
structure FakeCoreDefinition where
  region_name : String
  name : String
  id : String
  arn : String
  latest_version : String
  latest_version_arn : String
deriving DecidableEq

/-- mkFakeCoreDefinition embeds FakeCoreDefinition.__init__, with the
generated uuid passed explicitly. -/
def mkFakeCoreDefinition (region_name : String) (id : String)
    (name : String) : FakeCoreDefinition :=
  { region_name := region_name
    name := name
    id := id
    arn := coreDefArn region_name id
    latest_version := ""
    latest_version_arn := "" }

/-- CoreDefContent models the dict built by
create_core_definition_version: definition = a map holding the submitted
Cores payload (itself opaque to the backend). -/
structure CoreDefContent where
  cores : String
deriving DecidableEq

/-- CoreInitialVersion models the initial_version argument of
create_core_definition; the code reads initial_version["Cores"]. -/
structure CoreInitialVersion where
  cores : String
deriving DecidableEq

/-- FakeCoreDefinitionVersion. -/
structure FakeCoreDefinitionVersion where
  region_name : String
  core_definition_id : String
  definition : CoreDefContent
  version : String
  arn : String
deriving DecidableEq

/-- mkFakeCoreDefinitionVersion embeds
FakeCoreDefinitionVersion.__init__. -/
def mkFakeCoreDefinitionVersion (region_name core_definition_id : String)
    (definition : CoreDefContent) (version : String) :
    FakeCoreDefinitionVersion :=
  { region_name := region_name
    core_definition_id := core_definition_id
    definition := definition
    version := version
    arn := coreDefVerArn region_name core_definition_id version }

/-- FakeDeviceDefinitionVersion, reduced to the fields the group
cross-reference validator reads (the device CRUD operations are not
needed by any claim). -/
structure FakeDeviceDefinitionVersion where
  device_definition_id : String
  version : String
  arn : String
deriving DecidableEq

/-- FakeFunctionDefinitionVersion, reduced as for devices. -/
structure FakeFunctionDefinitionVersion where
  function_definition_id : String
  version : String
  arn : String
deriving DecidableEq

/-- Resource payload: the _validate_resources checks read
resource["ResourceDataContainer"]["LocalVolumeResourceData"]["SourcePath"]
(with empty-dict defaults at each level) and
["LocalDeviceResourceData"]["SourcePath"]. -/
structure LocalDeviceResourceData where
  source_path : String
deriving DecidableEq

/-- LocalVolumeResourceData, reduced to the one key the validator
reads. -/
structure LocalVolumeResourceData where
  source_path : String
deriving DecidableEq

/-- ResourceDataContainer: each member dict may be absent. -/
structure ResourceDataContainer where
  local_device_resource_data : Option LocalDeviceResourceData
  local_volume_resource_data : Option LocalVolumeResourceData
deriving DecidableEq

/-- GGResource models one entry of the Resources list; rest collapses
the payload fields the backend never reads. -/
structure GGResource where
  resource_data_container : Option ResourceDataContainer
  rest : String
deriving DecidableEq

/-- ResInitialVersion models the initial_version argument of
create_resource_definition (the code reads the Resources key with a
default). -/
structure ResInitialVersion where
  resources : List GGResource
deriving DecidableEq

/-- resDefArn synthesizes the FakeResourceDefinition ARN. -/
def resDefArn (region_name id : String) : String :=
  "arn:aws:greengrass:" ++ region_name ++ ":" ++ ACCOUNT_ID ++
    ":greengrass/definition/resources/" ++ id

/-- FakeResourceDefinition. -/
structure FakeResourceDefinition where
  region_name : String
  id : String
  arn : String
  latest_version : String
  latest_version_arn : String
  name : String
  initial_version : ResInitialVersion
deriving DecidableEq

/-- mkFakeResourceDefinition embeds FakeResourceDefinition.__init__. -/
def mkFakeResourceDefinition (region_name : String) (id : String)
    (name : String) (initial_version : ResInitialVersion) :
    FakeResourceDefinition :=
  { region_name := region_name
    id := id
    arn := resDefArn region_name id
    latest_version := ""
    latest_version_arn := ""
    name := name
    initial_version := initial_version }

/-- FakeResourceDefinitionVersion. -/
structure FakeResourceDefinitionVersion where
  region_name : String
  resource_definition_id : String
  resources : List GGResource
  version : String
  arn : String
deriving DecidableEq

/-- mkFakeResourceDefinitionVersion embeds
FakeResourceDefinitionVersion.__init__. -/
def mkFakeResourceDefinitionVersion (region_name resource_definition_id : String)
    (resources : List GGResource) (version : String) :
    FakeResourceDefinitionVersion :=
  { region_name := region_name
    resource_definition_id := resource_definition_id
    resources := resources
    version := version
    arn := resDefArn region_name resource_definition_id ++ "/versions/" ++ version }

/-- Subscription models one entry of the Subscriptions list: the
validator reads Id, Source and Target; subject carries the remaining
payload. -/
structure Subscription where
  id : String
  source : String
  target : String
  subject : String
deriving DecidableEq

/-- SubInitialVersion models the initial_version argument of
create_subscription_definition. -/
structure SubInitialVersion where
  subscriptions : List Subscription
deriving DecidableEq

/-- subDefArn synthesizes the FakeSubscriptionDefinition ARN. -/
def subDefArn (region_name id : String) : String :=
  "arn:aws:greengrass:" ++ region_name ++ ":" ++ ACCOUNT_ID ++
    ":greengrass/definition/subscriptions/" ++ id

/-- FakeSubscriptionDefinition. -/
structure FakeSubscriptionDefinition where
  region_name : String
  id : String
  arn : String
  latest_version : String
  latest_version_arn : String
  name : String
  initial_version : SubInitialVersion
deriving DecidableEq

/-- mkFakeSubscriptionDefinition embeds
FakeSubscriptionDefinition.__init__. -/
def mkFakeSubscriptionDefinition (region_name : String) (id : String)
    (name : String) (initial_version : SubInitialVersion) :
    FakeSubscriptionDefinition :=
  { region_name := region_name
    id := id
    arn := subDefArn region_name id
    latest_version := ""
    latest_version_arn := ""
    name := name
    initial_version := initial_version }

/-- FakeSubscriptionDefinitionVersion. -/
structure FakeSubscriptionDefinitionVersion where
  region_name : String
  subscription_definition_id : String
  subscriptions : List Subscription
  version : String
  arn : String
deriving DecidableEq

/-- mkFakeSubscriptionDefinitionVersion embeds
FakeSubscriptionDefinitionVersion.__init__. -/
def mkFakeSubscriptionDefinitionVersion
    (region_name subscription_definition_id : String)
    (subscriptions : List Subscription) (version : String) :
    FakeSubscriptionDefinitionVersion :=
  { region_name := region_name
    subscription_definition_id := subscription_definition_id
    subscriptions := subscriptions
    version := version
    arn := subDefArn region_name subscription_definition_id ++ "/versions/" ++ version }

/-- groupArn synthesizes the FakeGroup ARN. -/
def groupArn (region_name group_id : String) : String :=
  "arn:aws:greengrass:" ++ region_name ++ ":" ++ ACCOUNT_ID ++
    ":greengrass/groups/" ++ group_id

/-- FakeGroup. -/
structure FakeGroup where
  region_name : String
  group_id : String
  name : String
  arn : String
  latest_version : String
  latest_version_arn : String
deriving DecidableEq

/-- mkFakeGroup embeds FakeGroup.__init__. -/
def mkFakeGroup (region_name : String) (group_id : String)
    (name : String) : FakeGroup :=
  { region_name := region_name
    group_id := group_id
    name := name
    arn := groupArn region_name group_id
    latest_version := ""
    latest_version_arn := "" }

/-- FakeGroupVersion. -/
structure FakeGroupVersion where
  region_name : String
  group_id : String
  version : String
  arn : String
  core_definition_version_arn : Option String
  device_definition_version_arn : Option String
  function_definition_version_arn : Option String
  resource_definition_version_arn : Option String
  subscription_definition_version_arn : Option String
deriving DecidableEq

/-- mkFakeGroupVersion embeds FakeGroupVersion.__init__. -/
def mkFakeGroupVersion (region_name group_id version : String)
    (core device function resource subscription : Option String) :
    FakeGroupVersion :=
  { region_name := region_name
    group_id := group_id
    version := version
    arn := groupArn region_name group_id ++ "/versions/" ++ version
    core_definition_version_arn := core
    device_definition_version_arn := device
    function_definition_version_arn := function
    resource_definition_version_arn := resource
    subscription_definition_version_arn := subscription }

/-- GroupInitialVersion models the InitialVersion dict passed to
create_group; each reference may be absent. -/
structure GroupInitialVersion where
  core_definition_version_arn : Option String
  device_definition_version_arn : Option String
  function_definition_version_arn : Option String
  resource_definition_version_arn : Option String
  subscription_definition_version_arn : Option String
deriving DecidableEq

/-- emptyGroupInit models the empty dict definitions fall back to when
initial_version is falsy. -/
def emptyGroupInit : GroupInitialVersion :=
  ⟨none, none, none, none, none⟩

/-- GreengrassBackend state (deployments and the device and function
definition stores appear for shape fidelity; their CRUD operations are
not needed by any claim). -/
structure GreengrassBackend where
  region_name : String
  groups : Dict String FakeGroup
  group_versions : Dict String (Dict String FakeGroupVersion)
  core_definitions : Dict String FakeCoreDefinition
  core_definition_versions : Dict String (Dict String FakeCoreDefinitionVersion)
  device_definition_versions : Dict String (Dict String FakeDeviceDefinitionVersion)
  function_definition_versions : Dict String (Dict String FakeFunctionDefinitionVersion)
  resource_definitions : Dict String FakeResourceDefinition
  resource_definition_versions : Dict String (Dict String FakeResourceDefinitionVersion)
  subscription_definitions : Dict String FakeSubscriptionDefinition
  subscription_definition_versions : Dict String (Dict String FakeSubscriptionDefinitionVersion)
deriving DecidableEq

/-- emptyGG is a freshly constructed backend for a given region. -/
def emptyGG (region_name : String) : GreengrassBackend :=
  { region_name := region_name
    groups := []
    group_versions := []
    core_definitions := []
    core_definition_versions := []
    device_definition_versions := []
    function_definition_versions := []
    resource_definitions := []
    resource_definition_versions := []
    subscription_definitions := []
    subscription_definition_versions := [] }

/-! ## Greengrass backend operations -/

/-- GreengrassBackend.create_core_definition_version.  The generated
version uuid is the verId argument.  The method performs no existence
check on the parent: the version is registered first, and the
latest-pointer assignment on self.core_definitions[id] raises KeyError
when the parent is absent, with the version registration already
persisted, exactly as in the Python code. -/
def GreengrassBackend.create_core_definition_version (s : GreengrassBackend)
    (verId : String) (core_definition_id : String) (cores : String) :
    Except GGError FakeCoreDefinitionVersion × GreengrassBackend :=
  let core_def_ver := mkFakeCoreDefinitionVersion s.region_name
    core_definition_id { cores := cores } verId
  let core_def_vers :=
    (dget? s.core_definition_versions core_definition_id).getD []
  let core_def_vers := dset core_def_vers core_def_ver.version core_def_ver
  let m1 := dset s.core_definition_versions core_definition_id core_def_vers
  let s1 : GreengrassBackend := { s with core_definition_versions := m1 }
  match dget? s1.core_definitions core_definition_id with
  | none => (.error (.keyError core_definition_id), s1)
  | some cd =>
      let cd1 : FakeCoreDefinition :=
        { cd with latest_version := core_def_ver.version,
                  latest_version_arn := core_def_ver.arn }
      let m2 := dset s1.core_definitions core_definition_id cd1
      (.ok core_def_ver, { s1 with core_definitions := m2 })

/-- GreengrassBackend.create_core_definition: registers the parent and
then synthesizes the initial version from initial_version["Cores"].  The
defId and verId arguments are the two generated uuids. -/
def GreengrassBackend.create_core_definition (s : GreengrassBackend)
    (defId verId : String) (name : String)
    (initial_version : CoreInitialVersion) :
    Except GGError FakeCoreDefinition × GreengrassBackend :=
  let core_definition := mkFakeCoreDefinition s.region_name defId name
  let s1 : GreengrassBackend :=
    { s with core_definitions := dset s.core_definitions defId core_definition }
  match s1.create_core_definition_version verId defId initial_version.cores with
  | (.error e, s2) => (.error e, s2)
  | (.ok _, s2) =>
      (.ok ((dget? s2.core_definitions defId).getD core_definition), s2)

/-- validate_resource embeds one iteration of
GreengrassBackend._validate_resources: a local-volume source path equal
to /sys or below it is rejected, then a present local-device resource
must have a source path beginning with /dev. -/
def validate_resource (resource : GGResource) : Except GGError Unit :=
  let volume_source_path :=
    match resource.resource_data_container with
    | none => ""
    | some c =>
        match c.local_volume_resource_data with
        | none => ""
        | some v => v.source_path
  if volume_source_path = "/sys" ∨ volume_source_path.startsWith "/sys/" then
    .error (.clientError "400"
      "The resources definition is invalid. (ErrorDetails: [Accessing /sys is prohibited])")
  else
    match (match resource.resource_data_container with
      | none => none
      | some c => c.local_device_resource_data) with
    | none => .ok ()
    | some d =>
        if !(d.source_path.startsWith "/dev") then
          .error (.clientError "400"
            ("The resources definition is invalid. (ErrorDetails: [Device resource path should begin with /dev, but got: "
              ++ d.source_path ++ "])"))
        else .ok ()

/-- validate_resources embeds GreengrassBackend._validate_resources:
the first violation raises. -/
def validate_resources : List GGResource → Except GGError Unit
  | [] => .ok ()
  | r :: rs =>
      match validate_resource r with
      | .error e => .error e
      | .ok () => validate_resources rs

/-- GreengrassBackend.create_resource_definition_version. -/
def GreengrassBackend.create_resource_definition_version
    (s : GreengrassBackend) (verId : String)
    (resource_definition_id : String) (resources : List GGResource) :
    Except GGError FakeResourceDefinitionVersion × GreengrassBackend :=
  if !(dcontains s.resource_definitions resource_definition_id) then
    (.error (.idNotFound "That resource definition does not exist."), s)
  else
    match validate_resources resources with
    | .error e => (.error e, s)
    | .ok () =>
        let resource_def_ver := mkFakeResourceDefinitionVersion s.region_name
          resource_definition_id resources verId
        let resources_ver :=
          (dget? s.resource_definition_versions resource_definition_id).getD []
        let resources_ver :=
          dset resources_ver resource_def_ver.version resource_def_ver
        let m1 := dset s.resource_definition_versions resource_definition_id resources_ver
        let s1 : GreengrassBackend := { s with resource_definition_versions := m1 }
        match dget? s1.resource_definitions resource_definition_id with
        | none => (.error (.keyError resource_definition_id), s1)
        | some rd =>
            let rd1 : FakeResourceDefinition :=
              { rd with latest_version := resource_def_ver.version,
                        latest_version_arn := resource_def_ver.arn }
            let m2 := dset s1.resource_definitions resource_definition_id rd1
            (.ok resource_def_ver, { s1 with resource_definitions := m2 })

/-- GreengrassBackend.create_resource_definition: validates the
Resources payload before the parent is registered, then registers the
parent and synthesizes the initial version (which validates the same
payload a second time). -/
def GreengrassBackend.create_resource_definition (s : GreengrassBackend)
    (defId verId : String) (name : String)
    (initial_version : ResInitialVersion) :
    Except GGError FakeResourceDefinition × GreengrassBackend :=
  match validate_resources initial_version.resources with
  | .error e => (.error e, s)
  | .ok () =>
      let resource_def :=
        mkFakeResourceDefinition s.region_name defId name initial_version
      let m1 := dset s.resource_definitions defId resource_def
      let s1 : GreengrassBackend := { s with resource_definitions := m1 }
      match s1.create_resource_definition_version verId defId
          initial_version.resources with
      | (.error e, s2) => (.error e, s2)
      | (.ok _, s2) =>
          (.ok ((dget? s2.resource_definitions defId).getD resource_def), s2)

/-- is_valid_subscription_target_or_source embeds
GreengrassBackend._is_valid_subscription_target_or_source. -/
def is_valid_subscription_target_or_source (target_or_source : String) :
    Bool :=
  target_or_source == "cloud" || target_or_source == "GGShadowService" ||
    thingArnMatch target_or_source || lambdaArnMatch target_or_source

/-- srcErrMsg is the per-subscription invalid-source message. -/
def srcErrMsg (sub : Subscription) : String :=
  "Subscription source is invalid. ID is " ++ sq ++ sub.id ++ sq ++
    " and Source is " ++ sq ++ sub.source ++ sq

/-- tgtErrMsg is the per-subscription invalid-target message. -/
def tgtErrMsg (sub : Subscription) : String :=
  "Subscription target is invalid. ID is " ++ sq ++ sub.id ++ sq ++
    " and Target is " ++ sq ++ sub.target ++ sq

/-- subscription_errors collects the error messages of
_validate_subscription_target_or_source in iteration order.  In the
Python code both the source and the target message are appended to the
target_errors list (source_errors is never populated), so one list is
the faithful model. -/
def subscription_errors : List Subscription → List String
  | [] => []
  | sub :: rest =>
      (if is_valid_subscription_target_or_source sub.source then []
       else [srcErrMsg sub]) ++
      (if is_valid_subscription_target_or_source sub.target then []
       else [tgtErrMsg sub]) ++
      subscription_errors rest

/-- subscriptionAggMsg is the aggregated error message raised when any
subscription is invalid. -/
def subscriptionAggMsg (errors : List String) : String :=
  "The subscriptions definition is invalid or corrupted. (ErrorDetails: [" ++
    String.intercalate ", " errors ++ "])"

/-- validate_subscription_target_or_source embeds
GreengrassBackend._validate_subscription_target_or_source. -/
def validate_subscription_target_or_source (subs : List Subscription) :
    Except GGError Unit :=
  match subscription_errors subs with
  | [] => .ok ()
  | e :: es => .error (.clientError "400" (subscriptionAggMsg (e :: es)))

/-- GreengrassBackend.create_subscription_definition_version: validates
the subscriptions, requires the parent to exist, then registers the new
version.  Note that, unlike the other four definition kinds, this
method does not repoint the parent latest_version pointers. -/
def GreengrassBackend.create_subscription_definition_version
    (s : GreengrassBackend) (verId : String)
    (subscription_definition_id : String)
    (subscriptions : List Subscription) :
    Except GGError FakeSubscriptionDefinitionVersion × GreengrassBackend :=
  match validate_subscription_target_or_source subscriptions with
  | .error e => (.error e, s)
  | .ok () =>
      if !(dcontains s.subscription_definitions subscription_definition_id) then
        (.error (.idNotFound "That subscriptions does not exist."), s)
      else
        let sub_def_ver := mkFakeSubscriptionDefinitionVersion s.region_name
          subscription_definition_id subscriptions verId
        let sub_vers :=
          (dget? s.subscription_definition_versions subscription_definition_id).getD []
        let sub_vers := dset sub_vers sub_def_ver.version sub_def_ver
        let m1 := dset s.subscription_definition_versions subscription_definition_id sub_vers
        (.ok sub_def_ver, { s with subscription_definition_versions := m1 })

/-- GreengrassBackend.create_subscription_definition: validates the
initial Subscriptions payload before the parent is registered, then
registers the parent, synthesizes the initial version and repoints the
parent latest pointers at it. -/
def GreengrassBackend.create_subscription_definition (s : GreengrassBackend)
    (defId verId : String) (name : String)
    (initial_version : SubInitialVersion) :
    Except GGError FakeSubscriptionDefinition × GreengrassBackend :=
  match validate_subscription_target_or_source initial_version.subscriptions with
  | .error e => (.error e, s)
  | .ok () =>
      let sub_def :=
        mkFakeSubscriptionDefinition s.region_name defId name initial_version
      let m1 := dset s.subscription_definitions defId sub_def
      let s1 : GreengrassBackend := { s with subscription_definitions := m1 }
      match s1.create_subscription_definition_version verId defId
          initial_version.subscriptions with
      | (.error e, s2) => (.error e, s2)
      | (.ok sub_def_ver, s2) =>
          let sub_def1 : FakeSubscriptionDefinition :=
            { sub_def with latest_version := sub_def_ver.version,
                           latest_version_arn := sub_def_ver.arn }
          let m2 := dset s2.subscription_definitions defId sub_def1
          (.ok sub_def1, { s2 with subscription_definitions := m2 })

/-- DefKind enumerates the five reference kinds dispatched on in
_validate_group_version_definitions. -/
inductive DefKind
  | cores
  | devices
  | functions
  | resources
  | subscriptions
deriving DecidableEq

/-- DefKind.str is the kind fragment spliced into the ARN regex. -/
def DefKind.str : DefKind → String
  | .cores => "cores"
  | .devices => "devices"
  | .functions => "functions"
  | .resources => "resources"
  | .subscriptions => "subscriptions"

/-- hasDefinition models definition_id in versions, where versions is
the version store selected by the kind dispatch. -/
def GreengrassBackend.hasDefinition (s : GreengrassBackend) (k : DefKind)
    (defId : String) : Bool :=
  match k with
  | .cores => dcontains s.core_definition_versions defId
  | .devices => dcontains s.device_definition_versions defId
  | .functions => dcontains s.function_definition_versions defId
  | .resources => dcontains s.resource_definition_versions defId
  | .subscriptions => dcontains s.subscription_definition_versions defId

/-- hasVersion models definition_version_id in versions[definition_id]. -/
def GreengrassBackend.hasVersion (s : GreengrassBackend) (k : DefKind)
    (defId verId : String) : Bool :=
  match k with
  | .cores =>
      dcontains ((dget? s.core_definition_versions defId).getD []) verId
  | .devices =>
      dcontains ((dget? s.device_definition_versions defId).getD []) verId
  | .functions =>
      dcontains ((dget? s.function_definition_versions defId).getD []) verId
  | .resources =>
      dcontains ((dget? s.resource_definition_versions defId).getD []) verId
  | .subscriptions =>
      dcontains ((dget? s.subscription_definition_versions defId).getD []) verId

/-- storedVersionArn models versions[definition_id][definition_version_id].arn. -/
def GreengrassBackend.storedVersionArn (s : GreengrassBackend) (k : DefKind)
    (defId verId : String) : Option String :=
  match k with
  | .cores =>
      (dget? ((dget? s.core_definition_versions defId).getD []) verId).map
        (fun v => v.arn)
  | .devices =>
      (dget? ((dget? s.device_definition_versions defId).getD []) verId).map
        (fun v => v.arn)
  | .functions =>
      (dget? ((dget? s.function_definition_versions defId).getD []) verId).map
        (fun v => v.arn)
  | .resources =>
      (dget? ((dget? s.resource_definition_versions defId).getD []) verId).map
        (fun v => v.arn)
  | .subscriptions =>
      (dget? ((dget? s.subscription_definition_versions defId).getD []) verId).map
        (fun v => v.arn)

/-- is_valid_def_ver_arn embeds the _is_valid_def_ver_arn closure: a None
reference is trivially valid; otherwise the ARN must match the kind
regex, its definition id (parts[-3]) must be in the kind version store,
its version id (parts[-1]) must be under that definition, and the stored
version ARN must literally equal the reference. -/
def GreengrassBackend.is_valid_def_ver_arn (s : GreengrassBackend)
    (k : DefKind) (definition_version_arn : Option String) : Bool :=
  match definition_version_arn with
  | none => true
  | some arn =>
      if !(defVerArnMatch k.str arn) then false
      else
        let parts := pySplitSlash arn
        let definition_id := pyIdxFromEnd parts 3
        if !(s.hasDefinition k definition_id) then false
        else
          let definition_version_id := pyIdxFromEnd parts 1
          if !(s.hasVersion k definition_id definition_version_id) then false
          else
            decide (s.storedVersionArn k definition_id definition_version_id
              = some arn)

/-- validate_group_version_definitions embeds
GreengrassBackend._validate_group_version_definitions, returning the
list of collected reference errors in the order the code checks the
kinds (cores, functions, resources, devices, subscriptions). -/
def GreengrassBackend.validate_group_version_definitions
    (s : GreengrassBackend)
    (core device function resource subscription : Option String) :
    List String :=
  (if s.is_valid_def_ver_arn .cores core then []
   else ["Cores definition reference does not exist"]) ++
  (if s.is_valid_def_ver_arn .functions function then []
   else ["Lambda definition reference does not exist"]) ++
  (if s.is_valid_def_ver_arn .resources resource then []
   else ["Resource definition reference does not exist"]) ++
  (if s.is_valid_def_ver_arn .devices device then []
   else ["Devices definition reference does not exist"]) ++
  (if s.is_valid_def_ver_arn .subscriptions subscription then []
   else ["Subscription definition reference does not exist"])

/-- groupAggMsg is the aggregated group-reference error message. -/
def groupAggMsg (errors : List String) : String :=
  "The group is invalid or corrupted. (ErrorDetails: [" ++
    String.intercalate ", " errors ++ "])"

/-- GreengrassBackend.create_group_version: the group must exist, all
supplied references must validate (errors aggregated), then the version
is registered and the group latest pointers repointed. -/
def GreengrassBackend.create_group_version (s : GreengrassBackend)
    (verId : String) (group_id : String)
    (core device function resource subscription : Option String) :
    Except GGError FakeGroupVersion × GreengrassBackend :=
  if !(dcontains s.groups group_id) then
    (.error (.idNotFound "That group does not exist."), s)
  else
    match s.validate_group_version_definitions core device function
        resource subscription with
    | e :: es => (.error (.clientError "400" (groupAggMsg (e :: es))), s)
    | [] =>
        let group_ver := mkFakeGroupVersion s.region_name group_id verId
          core device function resource subscription
        let group_vers := (dget? s.group_versions group_id).getD []
        let group_vers := dset group_vers group_ver.version group_ver
        let m1 := dset s.group_versions group_id group_vers
        let s1 : GreengrassBackend := { s with group_versions := m1 }
        match dget? s1.groups group_id with
        | none => (.error (.keyError group_id), s1)
        | some g =>
            let g1 : FakeGroup :=
              { g with latest_version := group_ver.version,
                       latest_version_arn := group_ver.arn }
            (.ok group_ver,
              { s1 with groups := dset s1.groups group_id g1 })

/-- GreengrassBackend.create_group: registers the group first and only
then attempts to create the initial group version, so a failing
reference validation leaves the group stored with no version. -/
def GreengrassBackend.create_group (s : GreengrassBackend)
    (gid verId : String) (name : String)
    (initial_version : Option GroupInitialVersion) :
    Except GGError FakeGroup × GreengrassBackend :=
  let group := mkFakeGroup s.region_name gid name
  let s1 : GreengrassBackend := { s with groups := dset s.groups gid group }
  let definitions := initial_version.getD emptyGroupInit
  match s1.create_group_version verId gid
      definitions.core_definition_version_arn
      definitions.device_definition_version_arn
      definitions.function_definition_version_arn
      definitions.resource_definition_version_arn
      definitions.subscription_definition_version_arn with
  | (.error e, s2) => (.error e, s2)
  | (.ok _, s2) => (.ok ((dget? s2.groups gid).getD group), s2)

/-! ## Auxiliary lemmas -/

theorem dcontains_erase_ne [DecidableEq κ] (d : Dict κ α) (k k' : κ)
    (h : k' ≠ k) : dcontains (derase d k) k' = dcontains d k' := by
  simp [dcontains, dget_erase_ne d k k' h]

theorem pyListGet_none (xs : List α) (i : Int)
    (h : i < -(xs.length : Int) ∨ (xs.length : Int) ≤ i) :
    pyListGet xs i = none := by
  rcases h with h | h
  · have h0 : ¬ (0 ≤ i) := by omega
    have h1 : ¬ (-(xs.length : Int) ≤ i) := by omega
    simp [pyListGet, h0, h1]
  · by_cases h0 : 0 ≤ i
    · have hnone : xs.get? i.toNat = none := List.get?_eq_none.mpr (by omega)
      unfold pyListGet
      rw [if_pos h0]
      exact hnone
    · have h1 : ¬ (-(xs.length : Int) ≤ i) := by omega
      simp [pyListGet, h0, h1]

theorem pyListGet_neg (xs : List α) (i : Int)
    (h1 : -(xs.length : Int) ≤ i) (h2 : i ≤ -1) :
    ∃ v, xs.get? ((xs.length : Int) + i).toNat = some v ∧
      pyListGet xs i = some v := by
  have h0 : ¬ (0 ≤ i) := by omega
  have hlt : ((xs.length : Int) + i).toNat < xs.length := by omega
  refine ⟨xs.get ⟨((xs.length : Int) + i).toNat, hlt⟩, ?_, ?_⟩
  · exact List.get?_eq_get hlt
  · unfold pyListGet
    simp [h0, h1, List.get?_eq_get hlt]

/-! ## Claim C3 -/

/-- C3: for a table holding exactly three appended snapshots,
get_table_version returns the first for token "1" and the third for
token "3", fails with VersionNotFound for token "4" and with
InvalidInput (carrying the int() parse failure message) for token "x";
in general any parsed token whose internal index is out of range fails
with VersionNotFound and any unparsable token fails with the
invalid-input error carrying the parse failure message. -/
theorem C3_theorem :
    (∀ (v1 v2 v3 : TableInput) (t : FakeTable), t.versions = [v1, v2, v3] →
      t.get_version (.str "1") = .ok v1 ∧
      t.get_version (.str "3") = .ok v3 ∧
      t.get_version (.str "4") = .error .versionNotFound ∧
      t.get_version (.str "x") = .error (.invalidInput (invalidLiteralMsg "x"))) ∧
    (∀ (t : FakeTable) (s : String) (n : Int), pyInt s = some n →
      (n - 1 < -(t.versions.length : Int) ∨ (t.versions.length : Int) ≤ n - 1) →
      t.get_version (.str s) = .error .versionNotFound) ∧
    (∀ (t : FakeTable) (s : String), pyInt s = none →
      t.get_version (.str s) = .error (.invalidInput (invalidLiteralMsg s))) := by
  refine ⟨?_, ?_, ?_⟩
  · intro v1 v2 v3 t ht
    have h1 : pyInt "1" = some 1 := rfl
    have h3 : pyInt "3" = some 3 := rfl
    have h4 : pyInt "4" = some 4 := rfl
    have hx : pyInt "x" = none := rfl
    refine ⟨?_, ?_, ?_, ?_⟩ <;>
      simp [FakeTable.get_version, h1, h3, h4, hx, ht, pyListGet, List.get?]
  · intro t s n hs hrange
    simp [FakeTable.get_version, hs, pyListGet_none t.versions (n - 1) hrange]
  · intro t s hs
    simp [FakeTable.get_version, hs]

/-- C3 witness. -/
theorem C3_witness :
    (((mkFakeTable "db" "t" "v1").updateTable "v2").updateTable "v3").get_version
        (.str "1") = .ok "v1" ∧
    (((mkFakeTable "db" "t" "v1").updateTable "v2").updateTable "v3").get_version
        (.str "4") = .error .versionNotFound ∧
    (mkFakeTable "db" "t" "v1").get_version (.str "9") = .error .versionNotFound ∧
    (mkFakeTable "db" "t" "v1").get_version (.str "x")
      = .error (.invalidInput (invalidLiteralMsg "x")) :=
  ⟨(C3_theorem.1 "v1" "v2" "v3" _ rfl).1,
   (C3_theorem.1 "v1" "v2" "v3" _ rfl).2.2.1,
   C3_theorem.2.1 (mkFakeTable "db" "t" "v1") "9" 9 rfl (by norm_num [mkFakeTable]),
   C3_theorem.2.2 (mkFakeTable "db" "t" "v1") "x" rfl⟩

/-! ## Claim C10 -/

/-- C10: on a non-empty version list the external token "0" parses to
internal index -1 and get_version returns the most recently appended
snapshot; in general every numeric token whose internal index lies
between -len(versions) and -1 returns the stored snapshot counted from
the end rather than failing. -/
theorem C10_theorem :
    (pyInt "0" = some 0) ∧
    (∀ t : FakeTable, t.versions ≠ [] →
      ∃ v, t.versions.getLast? = some v ∧ t.get_version (.str "0") = .ok v) ∧
    (∀ (t : FakeTable) (s : String) (n : Int), pyInt s = some n →
      -(t.versions.length : Int) ≤ n - 1 → n - 1 ≤ -1 →
      ∃ v, t.versions.get? ((t.versions.length : Int) + (n - 1)).toNat = some v ∧
        t.get_version (.str s) = .ok v) := by
  have hgen : ∀ (t : FakeTable) (s : String) (n : Int), pyInt s = some n →
      -(t.versions.length : Int) ≤ n - 1 → n - 1 ≤ -1 →
      ∃ v, t.versions.get? ((t.versions.length : Int) + (n - 1)).toNat = some v ∧
        t.get_version (.str s) = .ok v := by
    intro t s n hs hlo hhi
    obtain ⟨v, hv, hpy⟩ := pyListGet_neg t.versions (n - 1) hlo hhi
    exact ⟨v, hv, by simp [FakeTable.get_version, hs, hpy]⟩
  refine ⟨rfl, ?_, hgen⟩
  intro t ht
  have hlen : 1 ≤ t.versions.length := by
    cases h : t.versions with
    | nil => exact absurd h ht
    | cons a l => simp [h]
  obtain ⟨v, hv, hok⟩ := hgen t "0" 0 rfl (by omega) (by omega)
  refine ⟨v, ?_, hok⟩
  rw [List.getLast?_eq_getElem? t.versions, ← List.get?_eq_getElem?]
  have : ((t.versions.length : Int) + (0 - 1)).toNat = t.versions.length - 1 := by
    omega
  rw [← this]
  exact hv

/-- C10 witness. -/
theorem C10_witness :
    (∃ v, (((mkFakeTable "db" "t" "v1").updateTable "v2").updateTable
        "v3").versions.getLast? = some v ∧
      ((((mkFakeTable "db" "t" "v1").updateTable "v2").updateTable
        "v3")).get_version (.str "0") = .ok v) ∧
    (∃ v, (((mkFakeTable "db" "t" "v1").updateTable "v2").updateTable
        "v3").versions.get?
        ((((((mkFakeTable "db" "t" "v1").updateTable "v2").updateTable
          "v3")).versions.length : Int) + (-2 - 1)).toNat = some v ∧
      ((((mkFakeTable "db" "t" "v1").updateTable "v2").updateTable
        "v3")).get_version (.str "-2") = .ok v) :=
  ⟨C10_theorem.2.1 _ (by simp [mkFakeTable, FakeTable.updateTable]),
   C10_theorem.2.2 _ "-2" (-2) rfl (by norm_num [mkFakeTable, FakeTable.updateTable])
     (by norm_num)⟩

/-! ## Claim C4 -/

/-- C4: when update_partition is called with old_values equal to the
input Values list, a missing canonical key fails with PartitionNotFound
and leaves the table unchanged, while a present key is replaced in
place: the result is ok, the stored partition under the key is the new
one, the ordered key listing is unchanged (so the partition keeps its
position), and every other entry is untouched. -/
theorem C4_theorem :
    ∀ (t : FakeTable) (old_values : List String) (input : PartitionInput),
    old_values = input.values →
    (dcontains t.partitions input.values = false →
      t.update_partition old_values input = (.error .partitionNotFound, t)) ∧
    (dcontains t.partitions input.values = true →
      (t.update_partition old_values input).1 = .ok () ∧
      dget? (t.update_partition old_values input).2.partitions input.values
        = some (mkFakePartition t.database_name t.name input) ∧
      dkeys (t.update_partition old_values input).2.partitions
        = dkeys t.partitions ∧
      (∀ k, k ≠ input.values →
        dget? (t.update_partition old_values input).2.partitions k
          = dget? t.partitions k)) := by
  intro t old_values input hold
  constructor
  · intro habs
    simp [FakeTable.update_partition, hold, mkFakePartition, habs]
  · intro hpres
    refine ⟨?_, ?_, ?_, ?_⟩
    · simp [FakeTable.update_partition, hold, mkFakePartition, hpres]
    · simp [FakeTable.update_partition, hold, mkFakePartition, hpres,
        dget_set_self]
    · simp [FakeTable.update_partition, hold, mkFakePartition, hpres,
        dkeys_set_of_contains _ _ _ hpres]
    · intro k hk
      simp [FakeTable.update_partition, hold, mkFakePartition, hpres,
        dget_set_ne _ _ _ _ hk]

/-- C4 witness. -/
theorem C4_witness :
    ((({ mkFakeTable "db" "t" "ti" with partitions :=
        [(["2021", "01"], mkFakePartition "db" "t" ⟨["2021", "01"], "old"⟩),
         (["2021", "02"], mkFakePartition "db" "t" ⟨["2021", "02"], "x"⟩)] } :
      FakeTable).update_partition ["2021", "01"] ⟨["2021", "01"], "new"⟩).1
        = .ok () ∧
      dkeys ((({ mkFakeTable "db" "t" "ti" with partitions :=
        [(["2021", "01"], mkFakePartition "db" "t" ⟨["2021", "01"], "old"⟩),
         (["2021", "02"], mkFakePartition "db" "t" ⟨["2021", "02"], "x"⟩)] } :
      FakeTable).update_partition ["2021", "01"]
        ⟨["2021", "01"], "new"⟩)).2.partitions
        = [["2021", "01"], ["2021", "02"]]) ∧
    ((mkFakeTable "db" "t" "ti").update_partition ["2021", "01"]
        ⟨["2021", "01"], "new"⟩)
      = (.error .partitionNotFound, mkFakeTable "db" "t" "ti") := by
  have h := C4_theorem
    ({ mkFakeTable "db" "t" "ti" with partitions :=
        [(["2021", "01"], mkFakePartition "db" "t" ⟨["2021", "01"], "old"⟩),
         (["2021", "02"], mkFakePartition "db" "t" ⟨["2021", "02"], "x"⟩)] } :
      FakeTable) ["2021", "01"] ⟨["2021", "01"], "new"⟩ rfl
  have h2 := C4_theorem (mkFakeTable "db" "t" "ti") ["2021", "01"]
    ⟨["2021", "01"], "new"⟩ rfl
  refine ⟨⟨(h.2 (by decide)).1, ?_⟩, h2.1 (by decide)⟩
  rw [(h.2 (by decide)).2.2.1]
  decide

/-! ## Claim C5 -/

/-- C5: when update_partition is called with old_values different from
the input Values list, a missing old key fails with PartitionNotFound
leaving the table unchanged; if the old key is present but the new
canonical key is occupied by a (necessarily different) partition the
call fails with PartitionAlreadyExists; otherwise the call succeeds and
afterwards the old key resolves to nothing while the new key resolves to
the updated partition. -/
theorem C5_theorem :
    ∀ (t : FakeTable) (old_values : List String) (input : PartitionInput),
    old_values ≠ input.values →
    (dget? t.partitions old_values = none →
      t.update_partition old_values input = (.error .partitionNotFound, t)) ∧
    (∀ p0, dget? t.partitions old_values = some p0 →
      dcontains t.partitions input.values = true →
      (t.update_partition old_values input).1 = .error .partitionAlreadyExists) ∧
    (∀ p0, dget? t.partitions old_values = some p0 →
      dcontains t.partitions input.values = false →
      (t.update_partition old_values input).1 = .ok () ∧
      dget? (t.update_partition old_values input).2.partitions old_values
        = none ∧
      dget? (t.update_partition old_values input).2.partitions input.values
        = some (mkFakePartition t.database_name t.name input)) := by
  intro t old_values input hne
  have hkey : input.values ≠ old_values := fun h => hne h.symm
  refine ⟨?_, ?_, ?_⟩
  · intro habs
    simp [FakeTable.update_partition, hne, mkFakePartition, habs]
  · intro p0 hp0 hocc
    have hocc1 : dcontains (derase t.partitions old_values) input.values = true := by
      rw [dcontains_erase_ne _ _ _ hkey]
      exact hocc
    simp [FakeTable.update_partition, hne, mkFakePartition, hp0, hocc1]
  · intro p0 hp0 hfree
    have hfree1 : dcontains (derase t.partitions old_values) input.values = false := by
      rw [dcontains_erase_ne _ _ _ hkey]
      exact hfree
    refine ⟨?_, ?_, ?_⟩
    · simp [FakeTable.update_partition, hne, mkFakePartition, hp0, hfree1]
    · simp [FakeTable.update_partition, hne, mkFakePartition, hp0, hfree1,
        dget_set_ne, dget_erase_self]
    · simp [FakeTable.update_partition, hne, mkFakePartition, hp0, hfree1,
        dget_set_self]

/-- C5 witness. -/
theorem C5_witness :
    (((({ mkFakeTable "db" "t" "ti" with partitions :=
        [(["2021", "01"], mkFakePartition "db" "t" ⟨["2021", "01"], "a"⟩)] } :
      FakeTable)).update_partition ["2021", "01"] ⟨["2021", "02"], "b"⟩).1
        = .ok () ∧
      dget? (((({ mkFakeTable "db" "t" "ti" with partitions :=
        [(["2021", "01"], mkFakePartition "db" "t" ⟨["2021", "01"], "a"⟩)] } :
      FakeTable)).update_partition ["2021", "01"]
        ⟨["2021", "02"], "b"⟩)).2.partitions ["2021", "01"] = none) ∧
    (((({ mkFakeTable "db" "t" "ti" with partitions :=
        [(["2021", "01"], mkFakePartition "db" "t" ⟨["2021", "01"], "a"⟩),
         (["2021", "02"], mkFakePartition "db" "t" ⟨["2021", "02"], "c"⟩)] } :
      FakeTable)).update_partition ["2021", "01"] ⟨["2021", "02"], "b"⟩).1
        = .error .partitionAlreadyExists) ∧
    ((mkFakeTable "db" "t" "ti").update_partition ["2021", "01"]
        ⟨["2021", "02"], "b"⟩)
      = (.error .partitionNotFound, mkFakeTable "db" "t" "ti") := by
  have h1 := C5_theorem
    ({ mkFakeTable "db" "t" "ti" with partitions :=
        [(["2021", "01"], mkFakePartition "db" "t" ⟨["2021", "01"], "a"⟩)] } :
      FakeTable) ["2021", "01"] ⟨["2021", "02"], "b"⟩ (by decide)
  have h2 := C5_theorem
    ({ mkFakeTable "db" "t" "ti" with partitions :=
        [(["2021", "01"], mkFakePartition "db" "t" ⟨["2021", "01"], "a"⟩),
         (["2021", "02"], mkFakePartition "db" "t" ⟨["2021", "02"], "c"⟩)] } :
      FakeTable) ["2021", "01"] ⟨["2021", "02"], "b"⟩ (by decide)
  have h3 := C5_theorem (mkFakeTable "db" "t" "ti") ["2021", "01"]
    ⟨["2021", "02"], "b"⟩ (by decide)
  exact ⟨⟨(h1.2.2 _ rfl (by decide)).1, (h1.2.2 _ rfl (by decide)).2.1⟩,
    h2.2.1 _ rfl (by decide), h3.1 rfl⟩

/-! ## Claim C1 -/

/-- C1 counterexample: create_job performs no duplicate check.  Starting
from a backend already holding a job named j, a second create_job call
with the same name succeeds (it returns the name; the method has no
failure path at all) and replaces the stored job, contradicting the
claim that it fails with AlreadyExists and leaves the stored job
unchanged. -/
theorem C1_counterexample :
    dcontains (((emptyGlue "us-east-1").create_job "j" "r1" "c1" "d1").2).jobs
      "j" = true ∧
    ((((emptyGlue "us-east-1").create_job "j" "r1" "c1" "d1").2).create_job
      "j" "r2" "c2" "d2").1 = "j" ∧
    dget? (((((emptyGlue "us-east-1").create_job "j" "r1" "c1" "d1").2).create_job
      "j" "r2" "c2" "d2").2).jobs "j" = some (mkFakeJob "j" "r2" "c2" "d2") ∧
    mkFakeJob "j" "r2" "c2" "d2" ≠ mkFakeJob "j" "r1" "c1" "d1" := by
  refine ⟨rfl, rfl, rfl, ?_⟩
  decide

/-- C1 amended: creating a database, table or crawler whose name is
already present fails with the corresponding AlreadyExists error and
leaves the whole backend (in particular the stored entity) unchanged,
but create_job performs no duplicate check: it always returns the name
and stores a freshly built FakeJob under it, replacing any previous
job. -/
theorem C1_theorem :
    (∀ (s : GlueBackend) (name input : String),
      dcontains s.databases name = true →
      s.create_database name input = (.error .databaseAlreadyExists, s)) ∧
    (∀ (s : GlueBackend) (db : String) (d : FakeDatabase)
      (tbl input : String),
      dget? s.databases db = some d →
      dcontains d.tables tbl = true →
      s.create_table db tbl input = (.error .tableAlreadyExists, s)) ∧
    (∀ (s : GlueBackend) (name role db desc : String),
      dcontains s.crawlers name = true →
      s.create_crawler name role db desc = (.error .crawlerAlreadyExists, s)) ∧
    (∀ (s : GlueBackend) (name role command desc : String),
      (s.create_job name role command desc).1 = name ∧
      dget? (s.create_job name role command desc).2.jobs name
        = some (mkFakeJob name role command desc)) := by
  refine ⟨?_, ?_, ?_, ?_⟩
  · intro s name input h
    simp [GlueBackend.create_database, h]
  · intro s db d tbl input hdb h
    simp [GlueBackend.create_table, hdb, h]
  · intro s name role db desc h
    simp [GlueBackend.create_crawler, h]
  · intro s name role command desc
    exact ⟨rfl, by simp [GlueBackend.create_job, dget_set_self]⟩

/-- C1 witness. -/
theorem C1_witness :
    ((((emptyGlue "us-east-1").create_database "d" "i1").2).create_database
      "d" "i2" = (.error .databaseAlreadyExists,
        ((emptyGlue "us-east-1").create_database "d" "i1").2)) ∧
    (((((emptyGlue "us-east-1").create_database "d" "i1").2).create_table
        "d" "t" "ti1").2.create_table "d" "t" "ti2"
      = (.error .tableAlreadyExists,
        ((((emptyGlue "us-east-1").create_database "d" "i1").2).create_table
          "d" "t" "ti1").2)) ∧
    ((((emptyGlue "us-east-1").create_crawler "c" "r" "db" "de").2).create_crawler
      "c" "r2" "db2" "de2" = (.error .crawlerAlreadyExists,
        ((emptyGlue "us-east-1").create_crawler "c" "r" "db" "de").2)) ∧
    (((emptyGlue "us-east-1").create_job "j" "r" "co" "de").1 = "j" ∧
      dget? ((emptyGlue "us-east-1").create_job "j" "r" "co" "de").2.jobs "j"
        = some (mkFakeJob "j" "r" "co" "de")) := by
  refine ⟨?_, ?_, ?_, C1_theorem.2.2.2 (emptyGlue "us-east-1") "j" "r" "co" "de"⟩
  · exact C1_theorem.1 _ "d" "i2" (by decide)
  · exact C1_theorem.2.1 _ "d"
      ({ mkFakeDatabase "d" "i1" with
          tables := [("t", mkFakeTable "d" "t" "ti1")] } : FakeDatabase)
      "t" "ti2" (by decide) (by decide)
  · exact C1_theorem.2.2.1 _ "c" "r2" "db2" "de2" (by decide)

/-! ## Claim C9 -/

/-- C9 counterexample: a crawler created in a backend whose region is
eu-west-1 does not carry eu-west-1 in its ARN: the glue ARN template
hard-codes us-east-1. -/
theorem C9_counterexample :
    ((emptyGlue "eu-west-1").create_crawler "c" "r" "db" "de").2.region_name
      = "eu-west-1" ∧
    dget? (((emptyGlue "eu-west-1").create_crawler "c" "r" "db" "de").2).crawlers
      "c" = some (mkFakeCrawler "c" "r" "db" "de") ∧
    (mkFakeCrawler "c" "r" "db" "de").arn
      = "arn:aws:glue:us-east-1:123456789012:crawler/c" ∧
    (mkFakeCrawler "c" "r" "db" "de").arn
      ≠ "arn:aws:glue:eu-west-1:123456789012:crawler/c" := by
  refine ⟨rfl, rfl, rfl, ?_⟩
  decide

/-- C9 amended: every ARN is synthesized deterministically in the form
arn:aws:service:region:account-id:kind/identifier, with /versions/id
appended for version resources; the greengrass entities embed the
backend region, but the glue crawler and job ARNs always embed the
literal region us-east-1 regardless of the backend region. -/
theorem C9_theorem :
    (∀ name role db desc : String, (mkFakeCrawler name role db desc).arn
      = "arn:aws:glue:us-east-1:" ++ ACCOUNT_ID ++ ":crawler/" ++ name) ∧
    (∀ name role command desc : String, (mkFakeJob name role command desc).arn
      = "arn:aws:glue:us-east-1:" ++ ACCOUNT_ID ++ ":job/" ++ name) ∧
    (∀ (s : GlueBackend) (name role db desc : String),
      dcontains s.crawlers name = false →
      dget? (s.create_crawler name role db desc).2.crawlers name
        = some (mkFakeCrawler name role db desc)) ∧
    (∀ region id name : String, (mkFakeCoreDefinition region id name).arn
      = "arn:aws:greengrass:" ++ region ++ ":" ++ ACCOUNT_ID ++
        ":greengrass/definition/cores/" ++ id) ∧
    (∀ (region id : String) (c : CoreDefContent) (vid : String),
      (mkFakeCoreDefinitionVersion region id c vid).arn
      = "arn:aws:greengrass:" ++ region ++ ":" ++ ACCOUNT_ID ++
        ":greengrass/definition/cores/" ++ id ++ "/versions/" ++ vid) ∧
    (∀ region gid name : String, (mkFakeGroup region gid name).arn
      = "arn:aws:greengrass:" ++ region ++ ":" ++ ACCOUNT_ID ++
        ":greengrass/groups/" ++ gid) := by
  refine ⟨fun _ _ _ _ => rfl, fun _ _ _ _ => rfl, ?_, fun _ _ _ => rfl,
    fun _ _ _ _ => rfl, fun _ _ _ => rfl⟩
  intro s name role db desc h
  simp [GlueBackend.create_crawler, h, dget_set_self]

/-- C9 witness. -/
theorem C9_witness :
    dget? ((emptyGlue "us-east-1").create_crawler "c" "r" "db" "de").2.crawlers
      "c" = some (mkFakeCrawler "c" "r" "db" "de") :=
  C9_theorem.2.2.1 (emptyGlue "us-east-1") "c" "r" "db" "de" (by decide)

/-! ## Claim C2 -/

/-- C2 counterexample: create_group registers the group before the
group-version cross-reference validation runs, so a create_group call
whose CoreDefinitionVersionArn is rejected by validation fails while
leaving the group present in its store with no version recorded for it,
contradicting the claimed atomicity invariant. -/
theorem C2_counterexample :
    ((emptyGG "us-east-1").create_group "g" "v" "grp"
        (some ⟨some "invalid-core-arn", none, none, none, none⟩)).1
      = .error (.clientError "400"
        "The group is invalid or corrupted. (ErrorDetails: [Cores definition reference does not exist])") ∧
    dcontains ((emptyGG "us-east-1").create_group "g" "v" "grp"
        (some ⟨some "invalid-core-arn", none, none, none, none⟩)).2.groups "g"
      = true ∧
    dget? ((emptyGG "us-east-1").create_group "g" "v" "grp"
        (some ⟨some "invalid-core-arn", none, none, none, none⟩)).2.group_versions
      "g" = none :=
  ⟨rfl, rfl, rfl⟩

/-- C2 amended: create_subscription_definition and
create_resource_definition validate the initial payload before the
parent is registered, so any failure leaves the backend completely
unchanged (no parent without a version); create_group, however,
registers the group before validating the initial group version, so a
failed create_group leaves the group in its store with no version under
its id. -/
theorem C2_theorem :
    (∀ (s : GreengrassBackend) (defId verId name : String)
      (iv : SubInitialVersion) (e : GGError),
      (s.create_subscription_definition defId verId name iv).1 = .error e →
      (s.create_subscription_definition defId verId name iv).2 = s) ∧
    (∀ (s : GreengrassBackend) (defId verId name : String)
      (iv : ResInitialVersion) (e : GGError),
      (s.create_resource_definition defId verId name iv).1 = .error e →
      (s.create_resource_definition defId verId name iv).2 = s) ∧
    (∀ (s : GreengrassBackend) (gid verId name : String)
      (iv : Option GroupInitialVersion) (e : GGError),
      dget? s.group_versions gid = none →
      (s.create_group gid verId name iv).1 = .error e →
      dcontains (s.create_group gid verId name iv).2.groups gid = true ∧
      dget? (s.create_group gid verId name iv).2.group_versions gid = none) := by
  refine ⟨?_, ?_, ?_⟩
  · intro s defId verId name iv e h
    cases hv : validate_subscription_target_or_source iv.subscriptions with
    | error e1 =>
      simp [GreengrassBackend.create_subscription_definition, hv]
    | ok u =>
      exfalso
      cases u
      simp [GreengrassBackend.create_subscription_definition,
        GreengrassBackend.create_subscription_definition_version, hv,
        dcontains_set_self] at h
  · intro s defId verId name iv e h
    cases hv : validate_resources iv.resources with
    | error e1 =>
      simp [GreengrassBackend.create_resource_definition, hv]
    | ok u =>
      exfalso
      cases u
      simp [GreengrassBackend.create_resource_definition,
        GreengrassBackend.create_resource_definition_version, hv,
        dcontains_set_self, dget_set_self] at h
  · intro s gid verId name iv e hfresh h
    cases hval : (({ s with groups := dset s.groups gid (mkFakeGroup s.region_name gid name) } : GreengrassBackend).validate_group_version_definitions (iv.getD emptyGroupInit).core_definition_version_arn (iv.getD emptyGroupInit).device_definition_version_arn (iv.getD emptyGroupInit).function_definition_version_arn (iv.getD emptyGroupInit).resource_definition_version_arn (iv.getD emptyGroupInit).subscription_definition_version_arn) with
    | nil =>
      exfalso
      simp [GreengrassBackend.create_group,
        GreengrassBackend.create_group_version, hval, dcontains_set_self,
        dget_set_self] at h
    | cons e1 es =>
      constructor
      · simp [GreengrassBackend.create_group,
          GreengrassBackend.create_group_version, hval, dcontains_set_self]
      · simp [GreengrassBackend.create_group,
          GreengrassBackend.create_group_version, hval, dcontains_set_self,
          hfresh]

/-- C2 witness. -/
theorem C2_witness :
    (((emptyGG "us-east-1").create_subscription_definition "d" "v" "n"
        ⟨[⟨"i1", "bad-src", "cloud", "s"⟩]⟩).2 = emptyGG "us-east-1") ∧
    (((emptyGG "us-east-1").create_resource_definition "d" "v" "n"
        ⟨[⟨some ⟨none, some ⟨"/sys"⟩⟩, "r"⟩]⟩).2 = emptyGG "us-east-1") ∧
    (dcontains ((emptyGG "us-east-1").create_group "g" "v" "n"
        (some ⟨some "invalid-core-arn", none, none, none, none⟩)).2.groups "g"
      = true ∧
      dget? ((emptyGG "us-east-1").create_group "g" "v" "n"
        (some ⟨some "invalid-core-arn", none, none, none, none⟩)).2.group_versions
        "g" = none) :=
  ⟨C2_theorem.1 (emptyGG "us-east-1") "d" "v" "n"
      ⟨[⟨"i1", "bad-src", "cloud", "s"⟩]⟩
      (.clientError "400" (subscriptionAggMsg
        [srcErrMsg ⟨"i1", "bad-src", "cloud", "s"⟩])) rfl,
   C2_theorem.2.1 (emptyGG "us-east-1") "d" "v" "n"
      ⟨[⟨some ⟨none, some ⟨"/sys"⟩⟩, "r"⟩]⟩
      (.clientError "400"
        "The resources definition is invalid. (ErrorDetails: [Accessing /sys is prohibited])")
      rfl,
   C2_theorem.2.2 (emptyGG "us-east-1") "g" "v" "n"
      (some ⟨some "invalid-core-arn", none, none, none, none⟩)
      (.clientError "400"
        "The group is invalid or corrupted. (ErrorDetails: [Cores definition reference does not exist])")
      rfl rfl⟩

/-! ## Claim C6 -/

theorem validate_mem_iff (s : GreengrassBackend)
    (core device function resource subscription : Option String) :
    (("Cores definition reference does not exist"
        ∈ s.validate_group_version_definitions core device function resource
          subscription) ↔ s.is_valid_def_ver_arn .cores core = false) ∧
    (("Lambda definition reference does not exist"
        ∈ s.validate_group_version_definitions core device function resource
          subscription) ↔ s.is_valid_def_ver_arn .functions function = false) ∧
    (("Resource definition reference does not exist"
        ∈ s.validate_group_version_definitions core device function resource
          subscription) ↔ s.is_valid_def_ver_arn .resources resource = false) ∧
    (("Devices definition reference does not exist"
        ∈ s.validate_group_version_definitions core device function resource
          subscription) ↔ s.is_valid_def_ver_arn .devices device = false) ∧
    (("Subscription definition reference does not exist"
        ∈ s.validate_group_version_definitions core device function resource
          subscription) ↔ s.is_valid_def_ver_arn .subscriptions subscription
          = false) := by
  cases h1 : s.is_valid_def_ver_arn .cores core <;>
    cases h2 : s.is_valid_def_ver_arn .functions function <;>
    cases h3 : s.is_valid_def_ver_arn .resources resource <;>
    cases h4 : s.is_valid_def_ver_arn .devices device <;>
    cases h5 : s.is_valid_def_ver_arn .subscriptions subscription <;>
    simp only [GreengrassBackend.validate_group_version_definitions,
      h1, h2, h3, h4, h5] <;> decide

theorem is_valid_false_of_no_def (s : GreengrassBackend) (k : DefKind)
    (arn : String)
    (h : s.hasDefinition k (pyIdxFromEnd (pySplitSlash arn) 3) = false) :
    s.is_valid_def_ver_arn k (some arn) = false := by
  by_cases hm : defVerArnMatch k.str arn
  · simp [GreengrassBackend.is_valid_def_ver_arn, hm, h]
  · simp [GreengrassBackend.is_valid_def_ver_arn, hm]

/-- C6: create_group_version on an existing group trivially succeeds
when all five definition-version references are null.  Otherwise each of
the five reference kinds is checked independently (membership of a
kind error message in the collected error list is equivalent to that
kind reference being invalid, so failures are collected without
short-circuiting), and a non-empty error list makes the call fail with
the single aggregated error listing every violated reference while
leaving the state unchanged.  In particular a CoreDefinitionVersionArn
whose definition id was never created contributes the error "Cores
definition reference does not exist". -/
theorem C6_theorem :
    (∀ (s : GreengrassBackend) (verId gid : String),
      dcontains s.groups gid = true →
      (s.create_group_version verId gid none none none none none).1
        = .ok (mkFakeGroupVersion s.region_name gid verId none none none none
          none)) ∧
    (∀ (s : GreengrassBackend)
      (core device function resource subscription : Option String),
      (("Cores definition reference does not exist"
          ∈ s.validate_group_version_definitions core device function resource
            subscription) ↔ s.is_valid_def_ver_arn .cores core = false) ∧
      (("Lambda definition reference does not exist"
          ∈ s.validate_group_version_definitions core device function resource
            subscription) ↔ s.is_valid_def_ver_arn .functions function = false) ∧
      (("Resource definition reference does not exist"
          ∈ s.validate_group_version_definitions core device function resource
            subscription) ↔ s.is_valid_def_ver_arn .resources resource = false) ∧
      (("Devices definition reference does not exist"
          ∈ s.validate_group_version_definitions core device function resource
            subscription) ↔ s.is_valid_def_ver_arn .devices device = false) ∧
      (("Subscription definition reference does not exist"
          ∈ s.validate_group_version_definitions core device function resource
            subscription) ↔ s.is_valid_def_ver_arn .subscriptions subscription
            = false)) ∧
    (∀ (s : GreengrassBackend) (verId gid : String)
      (core device function resource subscription : Option String)
      (e : String) (es : List String),
      dcontains s.groups gid = true →
      s.validate_group_version_definitions core device function resource
        subscription = e :: es →
      s.create_group_version verId gid core device function resource
        subscription
        = (.error (.clientError "400" (groupAggMsg (e :: es))), s)) ∧
    (∀ (s : GreengrassBackend) (arn : String)
      (device function resource subscription : Option String),
      s.hasDefinition .cores (pyIdxFromEnd (pySplitSlash arn) 3) = false →
      "Cores definition reference does not exist"
        ∈ s.validate_group_version_definitions (some arn) device function
          resource subscription) := by
  refine ⟨?_, validate_mem_iff, ?_, ?_⟩
  · intro s verId gid hg
    obtain ⟨g, hgg⟩ := (dcontains_iff _ _).mp hg
    simp [GreengrassBackend.create_group_version, hg,
      GreengrassBackend.validate_group_version_definitions,
      GreengrassBackend.is_valid_def_ver_arn, hgg]
  · intro s verId gid core device function resource subscription e es hg hval
    simp [GreengrassBackend.create_group_version, hg, hval]
  · intro s arn device function resource subscription h
    exact (validate_mem_iff s (some arn) device function resource
      subscription).1.mpr (is_valid_false_of_no_def s .cores arn h)

/-- C6 witness. -/
theorem C6_witness :
    ((({ emptyGG "us-east-1" with
        groups := [("g", mkFakeGroup "us-east-1" "g" "grp")] } :
      GreengrassBackend).create_group_version "v" "g" none none none none
        none).1
      = .ok (mkFakeGroupVersion "us-east-1" "g" "v" none none none none
        none)) ∧
    ("Cores definition reference does not exist"
      ∈ (emptyGG "us-east-1").validate_group_version_definitions
        (some "arn:aws:greengrass:us-east-1:123456789012:greengrass/definition/cores/00000000-0000-4000-8000-000000000000/versions/00000000-0000-4000-8000-000000000001")
        none none none none) ∧
    (({ emptyGG "us-east-1" with
        groups := [("g", mkFakeGroup "us-east-1" "g" "grp")] } :
      GreengrassBackend).create_group_version "v" "g" (some "invalid") none
        none none none
      = (.error (.clientError "400"
          (groupAggMsg ["Cores definition reference does not exist"])),
        ({ emptyGG "us-east-1" with
          groups := [("g", mkFakeGroup "us-east-1" "g" "grp")] } :
        GreengrassBackend))) :=
  ⟨C6_theorem.1 _ "v" "g" (by decide),
   C6_theorem.2.2.2 (emptyGG "us-east-1") _ none none none none (by decide),
   C6_theorem.2.2.1 _ "v" "g" (some "invalid") none none none none
     "Cores definition reference does not exist" [] (by decide) (by decide)⟩

/-! ## Claim C7 -/

/-- C7: a subscription source or target is accepted exactly when it is
the literal string cloud, the literal string GGShadowService, a thing
ARN, or a fully-qualified lambda function ARN; an empty collected error
list is equivalent to every subscription having a valid source and
target; every invalid source or target contributes its message (naming
the subscription id) to the collected list; and a non-empty list makes
both create_subscription_definition and
create_subscription_definition_version fail with the single aggregated
error, leaving the state unchanged.  Concretely, cloud and
arn:aws:iot:us-east-1:123456789012:thing/foo are accepted and
not-a-real-target is rejected. -/
theorem C7_theorem :
    (∀ ts : String, is_valid_subscription_target_or_source ts = true ↔
      (ts = "cloud" ∨ ts = "GGShadowService" ∨ thingArnMatch ts = true ∨
        lambdaArnMatch ts = true)) ∧
    (∀ subs : List Subscription, subscription_errors subs = [] ↔
      ∀ sub ∈ subs, is_valid_subscription_target_or_source sub.source = true ∧
        is_valid_subscription_target_or_source sub.target = true) ∧
    (∀ (subs : List Subscription) (sub : Subscription), sub ∈ subs →
      is_valid_subscription_target_or_source sub.source = false →
      srcErrMsg sub ∈ subscription_errors subs) ∧
    (∀ (subs : List Subscription) (sub : Subscription), sub ∈ subs →
      is_valid_subscription_target_or_source sub.target = false →
      tgtErrMsg sub ∈ subscription_errors subs) ∧
    (∀ (s : GreengrassBackend) (defId verId name : String)
      (iv : SubInitialVersion) (e : String) (es : List String),
      subscription_errors iv.subscriptions = e :: es →
      s.create_subscription_definition defId verId name iv
        = (.error (.clientError "400" (subscriptionAggMsg (e :: es))), s)) ∧
    (∀ (s : GreengrassBackend) (verId defId : String)
      (subs : List Subscription) (e : String) (es : List String),
      subscription_errors subs = e :: es →
      s.create_subscription_definition_version verId defId subs
        = (.error (.clientError "400" (subscriptionAggMsg (e :: es))), s)) ∧
    (is_valid_subscription_target_or_source "cloud" = true ∧
      is_valid_subscription_target_or_source
        "arn:aws:iot:us-east-1:123456789012:thing/foo" = true ∧
      is_valid_subscription_target_or_source "not-a-real-target" = false) := by
  refine ⟨?_, ?_, ?_, ?_, ?_, ?_, by decide, by decide, by decide⟩
  · intro ts
    simp [is_valid_subscription_target_or_source, Bool.or_eq_true,
      beq_iff_eq, or_assoc]
  · intro subs
    induction subs with
    | nil => simp [subscription_errors]
    | cons sub rest ih =>
      cases hs : is_valid_subscription_target_or_source sub.source <;>
        cases ht : is_valid_subscription_target_or_source sub.target <;>
        simp [subscription_errors, hs, ht, ih]
  · intro subs sub hmem hbad
    induction subs with
    | nil => cases hmem
    | cons a rest ih =>
      rcases List.mem_cons.mp hmem with h | h
      · subst h
        simp [subscription_errors, hbad]
      · simp [subscription_errors]
        right
        right
        exact ih h
  · intro subs sub hmem hbad
    induction subs with
    | nil => cases hmem
    | cons a rest ih =>
      rcases List.mem_cons.mp hmem with h | h
      · subst h
        simp [subscription_errors, hbad]
      · simp [subscription_errors]
        right
        right
        exact ih h
  · intro s defId verId name iv e es h
    simp [GreengrassBackend.create_subscription_definition,
      validate_subscription_target_or_source, h]
  · intro s verId defId subs e es h
    simp [GreengrassBackend.create_subscription_definition_version,
      validate_subscription_target_or_source, h]

/-- C7 witness. -/
theorem C7_witness :
    subscription_errors
      [⟨"i1", "cloud", "arn:aws:iot:us-east-1:123456789012:thing/foo", "s"⟩]
      = [] ∧
    tgtErrMsg ⟨"i1", "cloud", "not-a-real-target", "s"⟩
      ∈ subscription_errors [⟨"i1", "cloud", "not-a-real-target", "s"⟩] ∧
    (emptyGG "us-east-1").create_subscription_definition "d" "v" "n"
      ⟨[⟨"i1", "cloud", "not-a-real-target", "s"⟩]⟩
      = (.error (.clientError "400" (subscriptionAggMsg
          [tgtErrMsg ⟨"i1", "cloud", "not-a-real-target", "s"⟩])),
        emptyGG "us-east-1") :=
  ⟨(C7_theorem.2.1 _).mpr (by decide),
   C7_theorem.2.2.2.1 _ _ (List.mem_singleton.mpr rfl) (by decide),
   C7_theorem.2.2.2.2.1 (emptyGG "us-east-1") "d" "v" "n" _ _ [] (by decide)⟩

/-! ## Claim C8 -/

theorem mkCoreDefVer_version (r d : String) (c : CoreDefContent)
    (v : String) : (mkFakeCoreDefinitionVersion r d c v).version = v := rfl

theorem mkSubDefVer_version (r d : String) (subs : List Subscription)
    (v : String) :
    (mkFakeSubscriptionDefinitionVersion r d subs v).version = v := rfl

theorem create_core_definition_version_spec (s : GreengrassBackend)
    (verId defId cores : String) (cd : FakeCoreDefinition)
    (hcd : dget? s.core_definitions defId = some cd) :
    (s.create_core_definition_version verId defId cores).1
      = .ok (mkFakeCoreDefinitionVersion s.region_name defId ⟨cores⟩ verId) ∧
    dget? (s.create_core_definition_version verId defId cores).2.core_definitions
      defId = some ({ cd with latest_version := verId, latest_version_arn := (mkFakeCoreDefinitionVersion s.region_name defId ⟨cores⟩ verId).arn }) ∧
    dget? ((dget? (s.create_core_definition_version verId defId
        cores).2.core_definition_versions defId).getD []) verId
      = some (mkFakeCoreDefinitionVersion s.region_name defId ⟨cores⟩ verId) ∧
    (∀ v, v ≠ verId →
      dget? ((dget? (s.create_core_definition_version verId defId
          cores).2.core_definition_versions defId).getD []) v
        = dget? ((dget? s.core_definition_versions defId).getD []) v) := by
  refine ⟨?_, ?_, ?_, ?_⟩
  · simp [GreengrassBackend.create_core_definition_version, hcd]
  · simp [GreengrassBackend.create_core_definition_version, hcd,
      mkCoreDefVer_version, dget_set_self]
  · simp [GreengrassBackend.create_core_definition_version, hcd,
      mkCoreDefVer_version, dget_set_self]
  · intro v hv
    simp [GreengrassBackend.create_core_definition_version, hcd,
      mkCoreDefVer_version, dget_set_self, dget_set_ne _ _ _ _ hv]

/-- C8 counterexample: after a successful create_subscription_definition
(whose initial version id is v1), a subsequent
create_subscription_definition_version appends a new version v2 but
does not repoint the parent latest_version, which still names v1; this
contradicts the claim that the round-trip holds after every subsequent
create_*_definition_version call. -/
theorem C8_counterexample :
    (dget? (((((emptyGG "us-east-1").create_subscription_definition "d" "v1"
        "n" ⟨[⟨"i", "cloud", "cloud", "s"⟩]⟩).2).create_subscription_definition_version
        "v2" "d" [⟨"i", "cloud", "GGShadowService", "s"⟩]).2).subscription_definitions
      "d").map (fun sd => sd.latest_version) = some "v1" ∧
    dcontains ((dget? (((((emptyGG "us-east-1").create_subscription_definition
        "d" "v1" "n" ⟨[⟨"i", "cloud", "cloud", "s"⟩]⟩).2).create_subscription_definition_version
        "v2" "d" [⟨"i", "cloud", "GGShadowService", "s"⟩]).2).subscription_definition_versions
      "d").getD []) "v2" = true ∧
    ("v1" : String) ≠ "v2" := by
  refine ⟨rfl, rfl, ?_⟩
  decide

/-- C8 amended: for core definitions the version round-trip holds: after
create_core_definition the parent stored under the definition id carries
latest_version equal to the synthesized version id and latest_version_arn
equal to that version object ARN, and the version stored under that id
has content equal to the submitted Cores payload; the same holds after
every subsequent create_core_definition_version call, which repoints the
latest pointers and never overwrites prior versions.
create_subscription_definition_version, however, appends the new version
without repointing the parent latest pointers, which are set only by
create_subscription_definition itself. -/
theorem C8_theorem :
    (∀ (s : GreengrassBackend) (defId verId name : String)
      (iv : CoreInitialVersion),
      (s.create_core_definition defId verId name iv).1
        = .ok ({ mkFakeCoreDefinition s.region_name defId name with latest_version := verId, latest_version_arn := (mkFakeCoreDefinitionVersion s.region_name defId ⟨iv.cores⟩ verId).arn }) ∧
      dget? (s.create_core_definition defId verId name
          iv).2.core_definitions defId
        = some ({ mkFakeCoreDefinition s.region_name defId name with latest_version := verId, latest_version_arn := (mkFakeCoreDefinitionVersion s.region_name defId ⟨iv.cores⟩ verId).arn }) ∧
      dget? ((dget? (s.create_core_definition defId verId name
          iv).2.core_definition_versions defId).getD []) verId
        = some (mkFakeCoreDefinitionVersion s.region_name defId ⟨iv.cores⟩
          verId) ∧
      (mkFakeCoreDefinitionVersion s.region_name defId ⟨iv.cores⟩
        verId).definition = ⟨iv.cores⟩) ∧
    (∀ (s : GreengrassBackend) (verId defId cores : String)
      (cd : FakeCoreDefinition),
      dget? s.core_definitions defId = some cd →
      (s.create_core_definition_version verId defId cores).1
        = .ok (mkFakeCoreDefinitionVersion s.region_name defId ⟨cores⟩
          verId) ∧
      dget? (s.create_core_definition_version verId defId
          cores).2.core_definitions defId
        = some ({ cd with latest_version := verId, latest_version_arn := (mkFakeCoreDefinitionVersion s.region_name defId ⟨cores⟩ verId).arn }) ∧
      dget? ((dget? (s.create_core_definition_version verId defId
          cores).2.core_definition_versions defId).getD []) verId
        = some (mkFakeCoreDefinitionVersion s.region_name defId ⟨cores⟩
          verId) ∧
      (∀ v, v ≠ verId →
        dget? ((dget? (s.create_core_definition_version verId defId
            cores).2.core_definition_versions defId).getD []) v
          = dget? ((dget? s.core_definition_versions defId).getD []) v)) ∧
    (∀ (s : GreengrassBackend) (verId defId : String)
      (subs : List Subscription),
      dcontains s.subscription_definitions defId = true →
      subscription_errors subs = [] →
      (s.create_subscription_definition_version verId defId
        subs).2.subscription_definitions = s.subscription_definitions ∧
      dget? ((dget? (s.create_subscription_definition_version verId defId
          subs).2.subscription_definition_versions defId).getD []) verId
        = some (mkFakeSubscriptionDefinitionVersion s.region_name defId subs
          verId)) := by
  refine ⟨?_, create_core_definition_version_spec, ?_⟩
  · intro s defId verId name iv
    have hb := create_core_definition_version_spec ({ s with core_definitions := dset s.core_definitions defId (mkFakeCoreDefinition s.region_name defId name) } : GreengrassBackend) verId defId iv.cores (mkFakeCoreDefinition s.region_name defId name) (dget_set_self _ _ _)
    cases hr : (({ s with core_definitions := dset s.core_definitions defId (mkFakeCoreDefinition s.region_name defId name) } : GreengrassBackend).create_core_definition_version verId defId iv.cores) with
    | mk fst snd =>
      rw [hr] at hb
      obtain ⟨h1, h2, h3, h4⟩ := hb
      simp only at h1 h2 h3
      subst h1
      refine ⟨?_, ?_, ?_, rfl⟩
      · simp [GreengrassBackend.create_core_definition, hr, h2]
      · simp [GreengrassBackend.create_core_definition, hr, h2]
      · simp [GreengrassBackend.create_core_definition, hr, h3]
  · intro s verId defId subs hdef herr
    constructor
    · simp [GreengrassBackend.create_subscription_definition_version,
        validate_subscription_target_or_source, herr, hdef]
    · simp [GreengrassBackend.create_subscription_definition_version,
        validate_subscription_target_or_source, herr, hdef,
        mkSubDefVer_version, dget_set_self]

/-- C8 witness. -/
theorem C8_witness :
    (((emptyGG "us-east-1").create_core_definition "d" "v1" "n"
        ⟨"cores-payload"⟩).1
      = .ok ({ mkFakeCoreDefinition "us-east-1" "d" "n" with latest_version := "v1", latest_version_arn := (mkFakeCoreDefinitionVersion "us-east-1" "d" ⟨"cores-payload"⟩ "v1").arn })) ∧
    ((((emptyGG "us-east-1").create_core_definition "d" "v1" "n"
        ⟨"cores-payload"⟩).2.create_core_definition_version "v2" "d"
          "cores-2").1
      = .ok (mkFakeCoreDefinitionVersion "us-east-1" "d" ⟨"cores-2"⟩
        "v2")) ∧
    ((((emptyGG "us-east-1").create_subscription_definition "d2" "w1" "n"
        ⟨[⟨"i", "cloud", "cloud", "s"⟩]⟩).2.create_subscription_definition_version
        "w2" "d2" [⟨"i", "cloud", "cloud", "s"⟩]).2.subscription_definitions
      = ((emptyGG "us-east-1").create_subscription_definition "d2" "w1" "n"
        ⟨[⟨"i", "cloud", "cloud", "s"⟩]⟩).2.subscription_definitions) :=
  ⟨(C8_theorem.1 (emptyGG "us-east-1") "d" "v1" "n" ⟨"cores-payload"⟩).1,
   (C8_theorem.2.1 ((emptyGG "us-east-1").create_core_definition "d" "v1" "n"
      ⟨"cores-payload"⟩).2 "v2" "d" "cores-2"
      ({ mkFakeCoreDefinition "us-east-1" "d" "n" with latest_version := "v1", latest_version_arn := (mkFakeCoreDefinitionVersion "us-east-1" "d" ⟨"cores-payload"⟩ "v1").arn })
      (by decide)).1,
   (C8_theorem.2.2 ((emptyGG "us-east-1").create_subscription_definition "d2"
      "w1" "n" ⟨[⟨"i", "cloud", "cloud", "s"⟩]⟩).2 "w2" "d2"
      [⟨"i", "cloud", "cloud", "s"⟩] (by decide) (by decide)).1⟩

end Moto
